import Mathlib

/-!
Shallow embedding of `src/host/greatfet/peripherals/spi_bus.py` (class `SPIBus`).

The Python class holds a board reference, a receive-buffer size and a list of
attached devices.  Its methods issue USB vendor requests to the board
collaborator.  We model:

* vendor request identifiers as an inductive type;
* each transport call issued to the board as a `TransportCall` value and the
  sequence of calls a method makes as a `List TransportCall` (in issue order);
* the board collaborator's read behaviour (`vendor_request_in`) as a function
  `board_read : Nat → List Nat` giving the bytes returned for a requested
  length;
* the caller's mutable `data` list: `transmit` extends it in place
  (`data.extend([0] * padding)`), so the result record carries the caller's
  sequence as it stands after the call;
* the Python `ValueError` raise as `Except.error` with the source's message.

Bytes are modelled as `Nat` (Python ints), device handles as an arbitrary
type `δ`, and the opaque board reference as an arbitrary type `β`.
-/

/-- Vendor request identifiers used by `spi_bus.py`
(from `greatfet.protocol.vendor_requests`). -/
inductive VendorRequest where
  | SPI_INIT
  | SPI_WRITE
  | SPI_READ
deriving DecidableEq

/-- One transport call issued to the board collaborator.
`vendor_request_out` carries a 16-bit value (0 when the source omits it) and a
data payload (empty when the source omits it); `vendor_request_in` carries the
requested read length. -/
inductive TransportCall where
  | vendor_request_out (request : VendorRequest) (value : Nat) (data : List Nat)
  | vendor_request_in (request : VendorRequest) (length : Nat)
deriving DecidableEq

/-- The state of an `SPIBus` object: the stored board reference, the stored
`buffer_size` limitation, and the list of attached devices. -/
structure SPIBus (β δ : Type) where
  board : β
  buffer_size : Nat
  devices : List δ
deriving DecidableEq

/-- The `ValueError` message raised by `transmit` on overflow. -/
def capacityError : String :=
  "Tried to send/receive more than the size of the receive buffer."

/-- `SPIBus.__init__`: stores the board reference and `buffer_size`, creates an
empty device list, computes `freq = serial_clock_rate << 8 | clock_prescale_rate`
and issues a single `SPI_INIT` vendor request with that value and no data bytes.
(The `name` parameter of the source is never stored or used, so it is omitted.)
Returns the constructed object together with the transport calls issued. -/
def SPIBus.init (board : β) (buffer_size : Nat)
    (serial_clock_rate : Nat) (clock_prescale_rate : Nat) :
    SPIBus β δ × List TransportCall :=
  let freq := serial_clock_rate <<< 8 ||| clock_prescale_rate
  ({ board := board, buffer_size := buffer_size, devices := [] },
   [TransportCall.vendor_request_out VendorRequest.SPI_INIT freq []])

/-- `SPIBus.attach_device`: appends the device to `self.devices`
(`self.devices.append(device)`). -/
def SPIBus.attach_device (self : SPIBus β δ) (device : δ) : SPIBus β δ :=
  { self with devices := self.devices ++ [device] }

/-- The observable effect of one `transmit` call:
`outcome` is the returned value or the raised `ValueError`;
`data` is the caller's sequence after the call (the source pads it in place);
`calls` are the transport calls issued to the board, in order;
`bus` is the bus object's state after the call. -/
structure TransmitResult (β δ : Type) where
  outcome : Except String (List Nat)
  data : List Nat
  calls : List TransportCall
  bus : SPIBus β δ

/-- `SPIBus.transmit(data, receive_length=None)`:
defaults `receive_length` to `len(data)`; if `receive_length > len(data)`,
extends `data` in place with `receive_length - len(data)` zero bytes; raises
`ValueError` when the (now possibly padded) `len(data)` exceeds
`self.buffer_size`; otherwise issues one `SPI_WRITE` vendor request with the
payload, then, if `receive_length > 0`, one `SPI_READ` vendor request for
`receive_length` bytes whose answer it returns, else returns `[]`. -/
def SPIBus.transmit (self : SPIBus β δ) (board_read : Nat → List Nat)
    (data : List Nat) (receive_length : Option Nat) : TransmitResult β δ :=
  let rl := receive_length.getD data.length
  let data := if rl > data.length
    then data ++ List.replicate (rl - data.length) 0
    else data
  if data.length > self.buffer_size then
    { outcome := Except.error capacityError, data := data, calls := [], bus := self }
  else if rl > 0 then
    { outcome := Except.ok (board_read rl),
      data := data,
      calls := [TransportCall.vendor_request_out VendorRequest.SPI_WRITE 0 data,
                TransportCall.vendor_request_in VendorRequest.SPI_READ rl],
      bus := self }
  else
    { outcome := Except.ok [],
      data := data,
      calls := [TransportCall.vendor_request_out VendorRequest.SPI_WRITE 0 data],
      bus := self }

/-- A concrete board-read behaviour for witnesses: a read of `n` bytes
returns `n` copies of `7`. -/
def boardReadN : Nat → List Nat := fun n => List.replicate n 7

/-- A concrete bus with `buffer_size = 2` for witnesses. -/
def busCap2 : SPIBus Nat Nat := { board := 0, buffer_size := 2, devices := [] }

/-- A concrete bus with `buffer_size = 255` (the source default) for witnesses. -/
def busCap255 : SPIBus Nat Nat := { board := 0, buffer_size := 255, devices := [] }

/-- C1: if the payload length after padding, `max (len data) rl` where `rl` is
the effective receive length, exceeds `buffer_size`, `transmit` raises the
`ValueError` and issues no transport call at all. -/
theorem transmit_capacity_error (self : SPIBus β δ) (board_read : Nat → List Nat)
    (data : List Nat) (receive_length : Option Nat)
    (h : max data.length (receive_length.getD data.length) > self.buffer_size) :
    (self.transmit board_read data receive_length).outcome = Except.error capacityError ∧
    (self.transmit board_read data receive_length).calls = [] := by
  unfold SPIBus.transmit
  by_cases hpad : receive_length.getD data.length > data.length
  · simp only [if_pos hpad]
    have hlen : (data ++ List.replicate (receive_length.getD data.length - data.length) 0).length
        > self.buffer_size := by
      simp only [List.length_append, List.length_replicate]
      omega
    simp only [if_pos hlen]
    exact ⟨trivial, trivial⟩
  · simp only [if_neg hpad]
    have hlen : data.length > self.buffer_size := by omega
    simp only [if_pos hlen]
    exact ⟨trivial, trivial⟩

/-- C1 witness: on a bus with `buffer_size = 2`, sending `[1, 2, 3]` (padded
length 3) raises the error and issues no transport call. -/
theorem transmit_capacity_error_witness :
    max ([1, 2, 3] : List Nat).length ((none : Option Nat).getD ([1, 2, 3] : List Nat).length)
      > busCap2.buffer_size ∧
    ((busCap2.transmit boardReadN [1, 2, 3] none).outcome = Except.error capacityError ∧
     (busCap2.transmit boardReadN [1, 2, 3] none).calls = []) :=
  ⟨by decide, transmit_capacity_error busCap2 boardReadN [1, 2, 3] none (by decide)⟩

/-- C2 counterexample: on a bus with `buffer_size = 2`, `transmit [] (some 3)`
has `receive_length > len data`, yet no payload is sent and no read is issued:
the call raises the capacity error with an empty call trace, contradicting the
claim's unconditional promise of a write and a read. -/
theorem transmit_padding_counterexample :
    (busCap2.transmit boardReadN [] (some 3)).calls = [] ∧
    (busCap2.transmit boardReadN [] (some 3)).outcome = Except.error capacityError := by
  exact ⟨rfl, rfl⟩

/-- C2 (amended with `receive_length ≤ buffer_size`): when
`receive_length > len data` and `receive_length ≤ buffer_size`, the caller's
sequence is extended in place with `receive_length - len data` zero bytes, the
single write carries exactly that padded payload, and the single read requests
exactly `receive_length` bytes. -/
theorem transmit_padding (self : SPIBus β δ) (board_read : Nat → List Nat)
    (data : List Nat) (rl : Nat)
    (h1 : rl > data.length) (h2 : rl ≤ self.buffer_size) :
    (self.transmit board_read data (some rl)).data
      = data ++ List.replicate (rl - data.length) 0 ∧
    (self.transmit board_read data (some rl)).calls
      = [TransportCall.vendor_request_out VendorRequest.SPI_WRITE 0
           (data ++ List.replicate (rl - data.length) 0),
         TransportCall.vendor_request_in VendorRequest.SPI_READ rl] := by
  unfold SPIBus.transmit
  simp only [Option.getD_some, if_pos h1]
  have hlen : ¬ ((data ++ List.replicate (rl - data.length) 0).length > self.buffer_size) := by
    simp only [List.length_append, List.length_replicate]
    omega
  have hrl : rl > 0 := by omega
  simp only [if_neg hlen, if_pos hrl]
  exact ⟨trivial, trivial⟩

/-- C2 amended witness: `transmit [1] (some 2)` on the 255-byte bus pads to
`[1, 0]`, writes `[1, 0]` and reads 2 bytes. -/
theorem transmit_padding_witness :
    2 > ([1] : List Nat).length ∧ 2 ≤ busCap255.buffer_size ∧
    ((busCap255.transmit boardReadN [1] (some 2)).data = [1, 0] ∧
     (busCap255.transmit boardReadN [1] (some 2)).calls
       = [TransportCall.vendor_request_out VendorRequest.SPI_WRITE 0 [1, 0],
          TransportCall.vendor_request_in VendorRequest.SPI_READ 2]) :=
  ⟨by decide, by decide, transmit_padding busCap255 boardReadN [1] 2 (by decide) (by decide)⟩

/-- C3 counterexample: `transmit [] none` (empty data, no receive length) on
the 255-byte bus issues the write but no read at all - the claim instead
promises exactly one read of length `len data = 0`. -/
theorem transmit_default_counterexample :
    (busCap255.transmit boardReadN [] none).calls
      = [TransportCall.vendor_request_out VendorRequest.SPI_WRITE 0 []] ∧
    (busCap255.transmit boardReadN [] none).outcome = Except.ok [] := by
  exact ⟨rfl, rfl⟩

/-- C3 (amended with `data` nonempty): for nonempty `data` with
`len data ≤ buffer_size`, `transmit data` with no receive length issues exactly
one write carrying the unmodified `data` followed by exactly one read of length
`len data`, returns the board's answer to that read verbatim, and leaves the
caller's sequence unmodified. -/
theorem transmit_default_receive (self : SPIBus β δ) (board_read : Nat → List Nat)
    (data : List Nat) (h0 : 0 < data.length) (h : data.length ≤ self.buffer_size) :
    (self.transmit board_read data none).calls
      = [TransportCall.vendor_request_out VendorRequest.SPI_WRITE 0 data,
         TransportCall.vendor_request_in VendorRequest.SPI_READ data.length] ∧
    (self.transmit board_read data none).outcome = Except.ok (board_read data.length) ∧
    (self.transmit board_read data none).data = data := by
  unfold SPIBus.transmit
  have hpad : ¬ ((none : Option Nat).getD data.length > data.length) := by
    simp only [Option.getD_none]
    omega
  simp only [if_neg hpad]
  have hlen : ¬ (data.length > self.buffer_size) := by omega
  simp only [Option.getD_none, if_neg hlen, if_pos h0]
  exact ⟨trivial, trivial, trivial⟩

/-- C3 amended witness: `transmit [9] none` on the 255-byte bus writes `[9]`,
reads 1 byte and returns `boardReadN 1 = [7]`. -/
theorem transmit_default_receive_witness :
    0 < ([9] : List Nat).length ∧ ([9] : List Nat).length ≤ busCap255.buffer_size ∧
    ((busCap255.transmit boardReadN [9] none).calls
       = [TransportCall.vendor_request_out VendorRequest.SPI_WRITE 0 [9],
          TransportCall.vendor_request_in VendorRequest.SPI_READ 1] ∧
     (busCap255.transmit boardReadN [9] none).outcome = Except.ok (boardReadN 1) ∧
     (busCap255.transmit boardReadN [9] none).data = [9]) :=
  ⟨by decide, by decide, transmit_default_receive busCap255 boardReadN [9] (by decide) (by decide)⟩

/-- C4: when the effective receive length is zero and `len data ≤ buffer_size`,
`transmit` still issues the single write carrying the payload, issues no read
request, and returns the empty sequence. -/
theorem transmit_zero_receive (self : SPIBus β δ) (board_read : Nat → List Nat)
    (data : List Nat) (receive_length : Option Nat)
    (h0 : receive_length.getD data.length = 0) (h : data.length ≤ self.buffer_size) :
    (self.transmit board_read data receive_length).calls
      = [TransportCall.vendor_request_out VendorRequest.SPI_WRITE 0 data] ∧
    (self.transmit board_read data receive_length).outcome = Except.ok [] := by
  unfold SPIBus.transmit
  have hpad : ¬ (receive_length.getD data.length > data.length) := by omega
  have hrl : ¬ (receive_length.getD data.length > 0) := by omega
  simp only [if_neg hpad]
  have hlen : ¬ (data.length > self.buffer_size) := by omega
  simp only [if_neg hlen, if_neg hrl]
  exact ⟨trivial, trivial⟩

/-- C4 witness: `transmit [5] (some 0)` on the 255-byte bus writes `[5]`,
issues no read, and returns `[]`. -/
theorem transmit_zero_receive_witness :
    (some 0).getD ([5] : List Nat).length = 0 ∧
    ([5] : List Nat).length ≤ busCap255.buffer_size ∧
    ((busCap255.transmit boardReadN [5] (some 0)).calls
       = [TransportCall.vendor_request_out VendorRequest.SPI_WRITE 0 [5]] ∧
     (busCap255.transmit boardReadN [5] (some 0)).outcome = Except.ok []) :=
  ⟨by decide, by decide, transmit_zero_receive busCap255 boardReadN [5] (some 0) (by decide) (by decide)⟩

/-- C5: construction computes `freq = serial_clock_rate << 8 | clock_prescale_rate`
and issues exactly one `SPI_INIT` request with that value and no data bytes; in
particular `serial_clock_rate = 2`, `clock_prescale_rate = 100` yields `0x0264`. -/
theorem init_config_word (β δ : Type) (board : β) (bs scr cpr : Nat) :
    (SPIBus.init board bs scr cpr : SPIBus β δ × List TransportCall).2
      = [TransportCall.vendor_request_out VendorRequest.SPI_INIT (scr <<< 8 ||| cpr) []] ∧
    ((2 : Nat) <<< 8 ||| 100) = 0x0264 :=
  ⟨rfl, by decide⟩

/-- C6: `attach_device` appends to the end of the registry, preserving all
existing entries and their order; attaching `a` then `b` leaves the registry
ending with `a` then `b`. -/
theorem attach_device_appends (self : SPIBus β δ) (a b : δ) :
    (self.attach_device a).devices = self.devices ++ [a] ∧
    ((self.attach_device a).attach_device b).devices = self.devices ++ [a, b] := by
  constructor
  · rfl
  · show (self.devices ++ [a]) ++ [b] = self.devices ++ [a, b]
    simp

/-- C7: within one `transmit` call the transport calls are strictly ordered:
the trace is empty (error), a lone write, or a write followed by a read;
a read never occurs before or without a write. -/
theorem transmit_write_before_read (self : SPIBus β δ) (board_read : Nat → List Nat)
    (data : List Nat) (receive_length : Option Nat) :
    (self.transmit board_read data receive_length).calls = [] ∨
    (∃ p, (self.transmit board_read data receive_length).calls
        = [TransportCall.vendor_request_out VendorRequest.SPI_WRITE 0 p]) ∨
    (∃ p n, (self.transmit board_read data receive_length).calls
        = [TransportCall.vendor_request_out VendorRequest.SPI_WRITE 0 p,
           TransportCall.vendor_request_in VendorRequest.SPI_READ n]) := by
  simp only [SPIBus.transmit]
  split <;> split <;>
    first
      | exact Or.inl rfl
      | (split <;>
          first
            | exact Or.inr (Or.inr ⟨_, _, rfl⟩)
            | exact Or.inr (Or.inl ⟨_, rfl⟩))

/-- C8: when `receive_length > len data` and `receive_length > buffer_size`,
the call raises the capacity error with no transport call, yet the caller's
sequence has already been extended in place with the zero padding (so it is no
longer equal to the original data). -/
theorem transmit_pads_before_error (self : SPIBus β δ) (board_read : Nat → List Nat)
    (data : List Nat) (rl : Nat)
    (h1 : rl > data.length) (h2 : rl > self.buffer_size) :
    (self.transmit board_read data (some rl)).outcome = Except.error capacityError ∧
    (self.transmit board_read data (some rl)).calls = [] ∧
    (self.transmit board_read data (some rl)).data
      = data ++ List.replicate (rl - data.length) 0 ∧
    (self.transmit board_read data (some rl)).data ≠ data := by
  have hne : data ++ List.replicate (rl - data.length) 0 ≠ data := by
    intro heq
    have hl := congrArg List.length heq
    simp only [List.length_append, List.length_replicate] at hl
    omega
  unfold SPIBus.transmit
  simp only [Option.getD_some, if_pos h1]
  have hlen : (data ++ List.replicate (rl - data.length) 0).length > self.buffer_size := by
    simp only [List.length_append, List.length_replicate]
    omega
  simp only [if_pos hlen]
  exact ⟨trivial, trivial, trivial, hne⟩

/-- C8 witness: `transmit [1] (some 4)` on the bus with `buffer_size = 2`
errors with no transport call, but the caller's list has become `[1, 0, 0, 0]`. -/
theorem transmit_pads_before_error_witness :
    4 > ([1] : List Nat).length ∧ 4 > busCap2.buffer_size ∧
    ((busCap2.transmit boardReadN [1] (some 4)).outcome = Except.error capacityError ∧
     (busCap2.transmit boardReadN [1] (some 4)).calls = [] ∧
     (busCap2.transmit boardReadN [1] (some 4)).data
       = [1] ++ List.replicate 3 0 ∧
     (busCap2.transmit boardReadN [1] (some 4)).data ≠ [1]) :=
  ⟨by decide, by decide, transmit_pads_before_error busCap2 boardReadN [1] 4 (by decide) (by decide)⟩

/-- C9: for `0 < receive_length ≤ len data ≤ buffer_size`, `transmit` applies
no padding (the caller's sequence is unchanged), writes the data unchanged,
reads exactly `receive_length` bytes (possibly fewer than sent), and returns
the board's answer. -/
theorem transmit_no_padding (self : SPIBus β δ) (board_read : Nat → List Nat)
    (data : List Nat) (rl : Nat)
    (h0 : 0 < rl) (h1 : rl ≤ data.length) (h2 : data.length ≤ self.buffer_size) :
    (self.transmit board_read data (some rl)).data = data ∧
    (self.transmit board_read data (some rl)).calls
      = [TransportCall.vendor_request_out VendorRequest.SPI_WRITE 0 data,
         TransportCall.vendor_request_in VendorRequest.SPI_READ rl] ∧
    (self.transmit board_read data (some rl)).outcome = Except.ok (board_read rl) := by
  unfold SPIBus.transmit
  have hpad : ¬ ((some rl).getD data.length > data.length) := by
    simp only [Option.getD_some]
    omega
  simp only [if_neg hpad]
  have hlen : ¬ (data.length > self.buffer_size) := by omega
  simp only [Option.getD_some, if_neg hlen, if_pos h0]
  exact ⟨trivial, trivial, trivial⟩

/-- C9 witness: `transmit [3, 4] (some 1)` on the 255-byte bus leaves the data
`[3, 4]`, writes `[3, 4]`, reads 1 byte and returns `boardReadN 1 = [7]`. -/
theorem transmit_no_padding_witness :
    0 < 1 ∧ 1 ≤ ([3, 4] : List Nat).length ∧
    ([3, 4] : List Nat).length ≤ busCap255.buffer_size ∧
    ((busCap255.transmit boardReadN [3, 4] (some 1)).data = [3, 4] ∧
     (busCap255.transmit boardReadN [3, 4] (some 1)).calls
       = [TransportCall.vendor_request_out VendorRequest.SPI_WRITE 0 [3, 4],
          TransportCall.vendor_request_in VendorRequest.SPI_READ 1] ∧
     (busCap255.transmit boardReadN [3, 4] (some 1)).outcome = Except.ok (boardReadN 1)) :=
  ⟨by decide, by decide, by decide,
   transmit_no_padding busCap255 boardReadN [3, 4] 1 (by decide) (by decide) (by decide)⟩

/-- C10: `transmit` never modifies the bus object's own state (its `board`,
`buffer_size` and `devices` are unchanged whether it returns or errors), and
`attach_device` modifies only the device registry, leaving `board` and
`buffer_size` unchanged. -/
theorem transmit_frame (self : SPIBus β δ) (board_read : Nat → List Nat)
    (data : List Nat) (receive_length : Option Nat) (device : δ) :
    (self.transmit board_read data receive_length).bus = self ∧
    (self.attach_device device).board = self.board ∧
    (self.attach_device device).buffer_size = self.buffer_size := by
  refine ⟨?_, rfl, rfl⟩
  simp only [SPIBus.transmit]
  split <;> split <;> first | rfl | (split <;> rfl)
